import Mathlib

/-
Verification of the `NotebookSource` module (ploomber/sources/NotebookSource.py):
a shallow embedding of the data model, the kernel/language resolution
functions, the validation functions and the `NotebookSource` facade, together
with theorems settling the specification claims.

External collaborators (jupytext, nbformat, papermill's
parameterize_notebook, parso's used-name scanner, pyflakes, the `ast` parser
and the jupyter kernel catalog) are modelled as opaque function parameters
grouped in an `Env` record; everything the module itself computes is
translated directly from the Python source.
-/

set_option autoImplicit false

namespace Ploomber

/-- A jupyter kernelspec record: name, display name and language. -/
structure Kernelspec where
  name : String
  display_name : String
  language : String
deriving Inhabited, DecidableEq, Repr

/-- A notebook cell: a source text span plus an optional tag list
(`cell.metadata.get('tags')`; `none` models a missing `tags` entry). -/
structure NbCell where
  source : String
  tags : Option (List String)
deriving Inhabited, DecidableEq, Repr

/-- A notebook document: ordered cells plus the metadata entries the module
reads or writes (`metadata.kernelspec` and the flag recording that the
papermill metadata section exists). -/
structure Nb where
  cells : List NbCell
  kernelspec : Option Kernelspec
  papermill : Bool
deriving Inhabited, DecidableEq, Repr

/-- The Python exceptions the module can raise or propagate. -/
inductive PyError where
  | typeError (msg : String)
  | valueError (msg : String)
  | keyError (key : String)
  | attributeError (attr : String)
  | runtimeError (msg : String)
  | notImplementedError (msg : String)
  | sourceInitializationError (msg : String)
  | renderError (msg : String)
  | noSuchKernel (name : String)
deriving Inhabited, DecidableEq, Repr

/-- Whether an error is the fatal `SourceInitializationError`. -/
def PyError.isSourceInitError : PyError → Bool
  | .sourceInitializationError _ => true
  | _ => false

/-- Whether an error is the render-validation `RenderError`. -/
def PyError.isRenderErrorB : PyError → Bool
  | .renderError _ => true
  | _ => false

/-- Whether an optional raised error is a `RenderError`. -/
def isSomeRenderError : Option PyError → Bool
  | some (.renderError _) => true
  | _ => false

/-- Whether `pat` is a literal leading segment of `s` (on character lists). -/
def charsLead : List Char → List Char → Bool
  | [], _ => true
  | _ :: _, [] => false
  | a :: as, b :: bs => a == b && charsLead as bs

/-- Whether `pat` occurs contiguously somewhere inside `s`. -/
def charsContain (pat : List Char) : List Char → Bool
  | [] => pat.isEmpty
  | c :: rest => charsLead pat (c :: rest) || charsContain pat rest

/-- Substring test: Python's `pat in s` on strings. -/
def strContains (s pat : String) : Bool :=
  charsContain pat.data s.data

/-- `'\n'.join(c.source for c in nb.cells)`: the concatenated cell sources
used by the content heuristic and by the static checker. -/
def concatSources (nb : Nb) : String :=
  String.intercalate "\n" (nb.cells.map (fun c => c.source))

/-- `determine_language`: map a file extension to a canonical language name,
`none` when inconclusive (e.g. `ipynb`). -/
def determine_language (extension : String) : Option String :=
  let extension := if charsLead ".".data extension.data then extension.drop 1 else extension
  List.lookup extension [("py", "python"), ("r", "r"), ("R", "r"), ("Rmd", "r"), ("rmd", "r")]

/-- Python truthiness of an optional string (`None` and `''` are falsy). -/
def pyTruthyOptStr : Option String → Bool
  | some v => !v.isEmpty
  | none => false

/-- The language value in effect after `if ext: language =
determine_language(ext)` inside `determine_kernel_name`. -/
def effectiveLanguage (ext : Option String) (language : Option String) : Option String :=
  if pyTruthyOptStr ext then determine_language (ext.getD "") else language

/-- The fixed language-to-kernel table of `determine_kernel_name`. -/
def lang2kernel : List (String × String) := [("python", "python3"), ("r", "ir")]

/-- `if language in lang2kernel: lang2kernel[language]` as a partial lookup. -/
def lang2kernelLookup (language : Option String) : Option String :=
  language.bind (fun l => List.lookup l lang2kernel)

/-- `is_python`: the content heuristic. `parseOk` models `ast.parse`
succeeding. Metadata language wins when present; otherwise a parse failure
means not Python, and a parse success still yields Python only when the text
does not contain the R assignment token. -/
def is_python (parseOk : String → Bool) (nb : Nb) : Bool :=
  let is_python0 : Option Bool :=
    match nb.kernelspec with
    | some ks => some (ks.language == "python")
    | none => none
  let is_python1 : Option Bool :=
    match is_python0 with
    | some b => some b
    | none =>
      let code_str := concatSources nb
      if parseOk code_str = false then some false
      else if strContains code_str "<-" = false then some true
      else none
  is_python1.getD false

/-- `determine_kernel_name`: explicit name, then notebook metadata, then the
extension-derived (or remaining) language through the fixed table, then the
content heuristic. -/
def determine_kernel_name (parseOk : String → Bool) (nb : Nb)
    (kernelspec_name : Option String) (ext : Option String) (language : Option String) :
    Option String :=
  match kernelspec_name with
  | some n => some n
  | none =>
    match nb.kernelspec with
    | some ks => some ks.name
    | none =>
      match lang2kernelLookup (effectiveLanguage ext language) with
      | some k => some k
      | none => if is_python parseOk nb then some "python3" else none

/-- The guidance message raised when no kernel name could be resolved. -/
def kernelGuidanceMsg : String :=
  "Notebook does not contain kernelspec metadata and kernelspec_name was not specified, either add kernelspec info to your source file or specify a kernelspec by name. To see list of installed kernels run \"jupyter kernelspec list\" in the terminal (first column indicates the name). Python is usually named \"python3\", R usually \"ir\""

/-- `ensure_kernelspec`: resolve a kernel name, raise the guidance error when
none resolves, then look the name up in the installed catalog
(`jupyter_client.kernelspec.get_kernel_spec`, which raises `NoSuchKernel`
when absent) and write the kernelspec metadata into the notebook. -/
def ensure_kernelspec (parseOk : String → Bool) (catalog : String → Option Kernelspec)
    (nb : Nb) (kernelspec_name : Option String) (ext : Option String)
    (language : Option String) : Except PyError Nb :=
  match determine_kernel_name parseOk nb kernelspec_name ext language with
  | none => .error (.sourceInitializationError kernelGuidanceMsg)
  | some kernel_name =>
    match catalog kernel_name with
    | none => .error (.noSuchKernel kernel_name)
    | some kernelspec =>
      .ok { nb with kernelspec := some {
        name := kernel_name,
        display_name := kernelspec.display_name,
        language := kernelspec.language } }

/-- Auxiliary linear scan for `find_cell_with_tag`. -/
def findCellAux (tag : String) (i : Nat) : List NbCell → Option NbCell × Option Nat
  | [] => (none, none)
  | c :: rest =>
    match c.tags with
    | some ts =>
      if !ts.isEmpty && ts.contains tag then (some c, some i)
      else findCellAux tag (i + 1) rest
    | none => findCellAux tag (i + 1) rest

/-- `find_cell_with_tag`: first cell (in document order) whose non-empty tag
list contains the tag, with its index; `(none, none)` otherwise. -/
def find_cell_with_tag (nb : Nb) (tag : String) : Option NbCell × Option Nat :=
  findCellAux tag 0 nb.cells

/-- A parameter value, as far as `json_serializable_params` observes it:
an opaque already-serializable value (with its Python truthiness), an
artifact descriptor exposing `to_json_serializable`, the result of that
conversion, or a dictionary. -/
inductive PVal where
  | plain (truthy : Bool)
  | artifact (id : String)
  | serialized (id : String)
  | dictV (entries : List (String × PVal))
deriving Inhabited, Repr

/-- Python truthiness of a parameter value. -/
def PVal.truthy : PVal → Bool
  | .plain b => b
  | .artifact _ => true
  | .serialized _ => true
  | .dictV entries => !entries.isEmpty

/-- `v.to_json_serializable()`: defined on artifact descriptors, an
`AttributeError` on anything else. -/
def PVal.to_json_serializable : PVal → Except PyError PVal
  | .artifact i => .ok (.serialized i)
  | _ => .error (.attributeError "to_json_serializable")

/-- Dictionary assignment `d[k] = v`: replace the binding of an existing key,
append otherwise. -/
def updateKey (k : String) (v : PVal) : List (String × PVal) → List (String × PVal)
  | [] => [(k, v)]
  | (k', v') :: rest => if k' = k then (k, v) :: rest else (k', v') :: updateKey k v rest

/-- The `Params` object passed to `render`; `to_dict` exposes its mapping. -/
structure Params where
  entries : List (String × PVal)

/-- `params.to_dict()`. -/
def Params.to_dict (p : Params) : List (String × PVal) := p.entries

/-- The dictionary comprehension converting every upstream value via
`to_json_serializable`; the first raised error propagates. -/
def convertUpstream : List (String × PVal) → Except PyError (List (String × PVal))
  | [] => .ok []
  | (k, v) :: rest =>
    match PVal.to_json_serializable v with
    | .error e => .error e
    | .ok v' =>
      match convertUpstream rest with
      | .error e => .error e
      | .ok rest' => .ok ((k, v') :: rest')

/-- `json_serializable_params`: convert the params object to a dict, convert
the `product` value (an unconditional key access), and convert the
`upstream` values only when `upstream` is present and truthy. -/
def json_serializable_params (params : Params) : Except PyError (List (String × PVal)) :=
  match List.lookup "product" params.to_dict with
  | none => .error (.keyError "product")
  | some p =>
    match PVal.to_json_serializable p with
    | .error e => .error e
    | .ok pj =>
      match List.lookup "upstream" (updateKey "product" pj params.to_dict) with
      | some u =>
        if u.truthy then
          match u with
          | .dictV entries =>
            match convertUpstream entries with
            | .error e => .error e
            | .ok entries1 =>
              .ok (updateKey "upstream" (.dictV entries1) (updateKey "product" pj params.to_dict))
          | _ => .error (.attributeError "items")
        else .ok (updateKey "product" pj params.to_dict)
      | none => .ok (updateKey "product" pj params.to_dict)

/-- `declared - params`: names declared in the parameters cell but not
supplied. -/
def missingOf (declared params : List String) : List String :=
  declared.filter (fun d => !params.contains d)

/-- `params - declared`: supplied names not declared in the parameters
cell. -/
def extraOf (declared params : List String) : List String :=
  params.filter (fun p => !declared.contains p)

/-- `compare_params`: warn (first component) on missing parameters, return a
non-empty error text (second component) exactly when extra parameters were
passed. `get_used_names` models parso's used-name scanner. -/
def compare_params (get_used_names : String → List String)
    (params_source : String) (params : List String) : Option String × String :=
  let declared := get_used_names params_source
  let missing := missingOf declared params
  let extra := extraOf declared params
  let warning :=
    if missing.isEmpty then none
    else some ("Missing parameters: " ++ String.intercalate ", " missing ++ ", will use default value")
  let err :=
    if extra.isEmpty then ""
    else "Passed non-declared parameters: " ++ String.intercalate ", " extra
  (warning, err)

/-- The collaborators of the module, grouped: the jupytext transcoder, the
nbformat serializer/deserializer, papermill's injector, the `ast` parse
oracle, the installed kernel catalog, parso's used-name scanner and the
pyflakes checker (returning warnings text and errors text). -/
structure Env where
  jupytext_reads : String → String → Nb
  nbformat_writes : Nb → String
  nbformat_reads : String → Nb
  parameterize_notebook : Nb → Option (List (String × PVal)) → Nb
  parseOk : String → Bool
  catalog : String → Option Kernelspec
  get_used_names : String → List String
  pyflakes_check : String → String → String × String

/-- `check_source`: run the checker on the concatenated cell sources. -/
def check_source (env : Env) (nb : Nb) (filename : String) : String × String :=
  env.pyflakes_check (concatSources nb) filename

/-- `check_notebook`: accumulate the extra-parameter finding and the checker
warnings/errors into one composite message and raise a single `RenderError`
exactly when the accumulated message is non-trivial; the first component is
the missing-parameter warning side channel. -/
def check_notebook (env : Env) (nb : Nb) (params : List (String × PVal))
    (filename : String) : Option String × Except PyError Bool :=
  match (find_cell_with_tag nb "parameters").1 with
  | none => (none, .error (.typeError "NoneType object is not subscriptable"))
  | some params_cell =>
    let res := compare_params env.get_used_names params_cell.source (params.map (fun kv => kv.1))
    let error_message := "\n" ++ res.2
    let checked := check_source env nb filename
    let error_message := error_message ++ (if checked.1 = "" then "" else "pyflakes warnings:\n" ++ checked.1)
    let error_message := error_message ++ (if checked.2 = "" then "" else "pyflakes errors:\n" ++ checked.2)
    if error_message = "\n" then (res.1, .ok true)
    else (res.1, .error (.renderError error_message))

/-- A `pathlib.Path`-like object: its string form, its `suffix` (with the
leading dot, pathlib convention) and the file content read at construction
time. -/
structure PathObj where
  str : String
  suffix : String
  content : String
deriving Inhabited, DecidableEq, Repr

/-- The three accepted primitives: a raw string, a `Path`, or a
`Placeholder` exposing a path and stringifiable content. -/
inductive Primitive where
  | str (s : String)
  | path (p : PathObj)
  | placeholder (p : PathObj)
deriving Inhabited, Repr

/-- The path carried by a primitive, if any. -/
def primitivePath : Primitive → Option PathObj
  | .str _ => none
  | .path p => some p
  | .placeholder p => some p

/-- The text carried by a primitive. -/
def primitiveText : Primitive → String
  | .str s => s
  | .path p => p.content
  | .placeholder p => p.content

/-- The mutable attributes of a `NotebookSource` instance: constructor
arguments plus the four lazily computed caches. -/
structure NBState where
  primitive : String
  path : Option PathObj
  ext_in : String
  static_analysis : Bool
  kernelspec_name : Option String
  hot_reload : Bool
  language : Option String
  params : Option (List (String × PVal))
  nb_str_unrendered : Option String
  nb_obj_unrendered : Option Nb
  nb_str_rendered : Option String
  nb_obj_rendered : Option Nb
deriving Inhabited

/-- `_to_nb_obj`: transcode the source through jupytext and ensure the
result carries kernelspec metadata. -/
def _to_nb_obj (env : Env) (source : String) (language : Option String)
    (ext : String) (kernelspec_name : Option String) : Except PyError Nb :=
  ensure_kernelspec env.parseOk env.catalog (env.jupytext_reads source ext)
    kernelspec_name (some ext) language

/-- Normalization performed by `_render` before injecting parameters: give
every cell a (possibly empty) tag list and create the top-level papermill
metadata namespace. This mutates the unrendered notebook object in place. -/
def normalizeNb (nb : Nb) : Nb :=
  { nb with
    cells := nb.cells.map (fun c =>
      { c with tags := match c.tags with | none => some [] | some ts => some ts }),
    papermill := true }

/-- The text `_render` computes and stores: serialize the injector's output
on the normalized notebook. -/
def renderedTextFrom (env : Env) (nb : Nb) (params : Option (List (String × PVal))) : String :=
  env.nbformat_writes (env.parameterize_notebook (normalizeNb nb) params)

/-- The fresh state a construction starts from, before the initial
unrendered read. -/
def initState (prim : String) (path : Option PathObj) (ext : String)
    (static_analysis : Bool) (kernelspec_name : Option String)
    (hot_reload : Bool) : NBState :=
  { primitive := prim, path := path, ext_in := ext,
    static_analysis := static_analysis, kernelspec_name := kernelspec_name,
    hot_reload := hot_reload, language := determine_language ext,
    params := none, nb_str_unrendered := none, nb_obj_unrendered := none,
    nb_str_rendered := none, nb_obj_rendered := none }

namespace NotebookSource

/-- `_read_nb_str_unrendered`: recompute the unrendered notebook and its
text when unset or when hot-reload is on (re-reading the backing file, whose
current content is `fileContent`), otherwise return the caches. Returns the
state after the call together with the result or the raised error. -/
def _read_nb_str_unrendered (env : Env) (fileContent : String) (s : NBState) :
    NBState × Except PyError (String × Nb) :=
  if s.nb_str_unrendered = none ∨ s.hot_reload = true then
    let prim := if s.hot_reload then fileContent else s.primitive
    let s1 := { s with primitive := prim }
    match _to_nb_obj env prim s.language s.ext_in s.kernelspec_name with
    | .error e => (s1, .error e)
    | .ok nb =>
      let str := env.nbformat_writes nb
      ({ s1 with nb_obj_unrendered := some nb, nb_str_unrendered := some str },
       .ok (str, nb))
  else
    (s, .ok (s.nb_str_unrendered.getD "", s.nb_obj_unrendered.getD default))

/-- The `language` property: the extension-derived language when known,
otherwise the (lower-cased) kernelspec language of the unrendered notebook,
re-reading it first. -/
def languageProp (env : Env) (fileContent : String) (s : NBState) :
    NBState × Except PyError (Option String) :=
  match s.language with
  | some l => (s, .ok (some l))
  | none =>
    match _read_nb_str_unrendered env fileContent s with
    | (s1, .error e) => (s1, .error e)
    | (s1, .ok (_, nb)) =>
      (s1, .ok (match nb.kernelspec with
                | some ks => some ks.language.toLower
                | none => none))

/-- `_post_render_validation`: when static analysis is on, run
`check_notebook` for Python notebooks and raise `NotImplementedError` for
any other language. -/
def _post_render_validation (env : Env) (fileContent : String) (s : NBState)
    (nb_str : String) : NBState × Option PyError :=
  if s.static_analysis = true then
    match languageProp env fileContent s with
    | (s1, .error e) => (s1, some e)
    | (s1, .ok lang) =>
      if lang = some "python" then
        let nb := env.nbformat_reads nb_str
        let filename := match s1.path with | some p => p.str | none => "notebook"
        match (check_notebook env nb (s1.params.getD []) filename).2 with
        | .error e => (s1, some e)
        | .ok _ => (s1, none)
      else
        (s1, some (.notImplementedError "static_analysis is only implemented for Python notebooks, set the option to False"))
  else (s, none)

/-- `_render`: re-read the unrendered notebook, normalize it, inject the
stored parameters, serialize the result into the rendered-text cache, then
validate. The rendered text is stored before validation runs. -/
def _render (env : Env) (fileContent : String) (s : NBState) :
    NBState × Option PyError :=
  match _read_nb_str_unrendered env fileContent s with
  | (s1, .error e) => (s1, some e)
  | (s1, .ok (_, nb)) =>
    _post_render_validation env fileContent
      { s1 with
        nb_obj_unrendered := some (normalizeNb nb),
        nb_str_rendered := some (renderedTextFrom env nb s1.params) }
      (renderedTextFrom env nb s1.params)

/-- `render(params)`: store the JSON-serializable parameters, then
`_render`. -/
def render (env : Env) (fileContent : String) (params : Params) (s : NBState) :
    NBState × Option PyError :=
  match json_serializable_params params with
  | .error e => (s, some e)
  | .ok d => _render env fileContent { s with params := some d }

/-- The `nb_str_rendered` property: a usage error before the first render,
otherwise (re-rendering first when hot-reload is on) the stored rendered
text. -/
def nb_str_rendered (env : Env) (fileContent : String) (s : NBState) :
    NBState × Except PyError String :=
  if s.nb_str_rendered = none then
    (s, .error (.runtimeError "Attempted to get location for an unrendered notebook, render it first"))
  else if s.hot_reload = true then
    match _render env fileContent s with
    | (s1, some e) => (s1, .error e)
    | (s1, none) => (s1, .ok (s1.nb_str_rendered.getD ""))
  else (s, .ok (s.nb_str_rendered.getD ""))

/-- The `nb_obj_rendered` property: return the cached rendered object when
present, otherwise parse the rendered text (which triggers hot reload) and
cache the result. -/
def nb_obj_rendered (env : Env) (fileContent : String) (s : NBState) :
    NBState × Except PyError Nb :=
  match s.nb_obj_rendered with
  | some o => (s, .ok o)
  | none =>
    match nb_str_rendered env fileContent s with
    | (s1, .error e) => (s1, .error e)
    | (s1, .ok str) =>
      let obj := env.nbformat_reads str
      ({ s1 with nb_obj_rendered := some obj }, .ok obj)

/-- `_post_init_validation`: require a cell tagged `parameters`, raising a
`SourceInitializationError` naming the document location when loaded from a
file. -/
def _post_init_validation (loc : Option PathObj) (nb : Nb) : Option PyError :=
  match (find_cell_with_tag nb "parameters").1 with
  | some _ => none
  | none =>
    some (.sourceInitializationError
      ("Notebook" ++ (match loc with | some p => " \"" ++ p.str ++ "\"" | none => "") ++
       " does not have a cell tagged \"parameters\""))

/-- Resolution of the `ext_in` argument against the presence of a path:
derived from the path's suffix when a path is given, required when content
is a bare string, rejected when both are present. -/
def extInResolve (path : Option PathObj) (ext_in : Option String) : Except PyError String :=
  match path, ext_in with
  | some p, none => .ok (p.suffix.drop 1)
  | none, none => .error (.valueError "\"ext_in\" cannot be None if the notebook is initialized from a string. Either pass a pathlib.Path object with the notebook file location or pass the source code as string and include the \"ext_in\" parameter")
  | some _, some _ => .error (.valueError "\"ext_in\" must be None if notebook is initialized from a pathlib.Path object")
  | none, some e => .ok e

/-- `NotebookSource.__init__`: unpack the primitive, reject hot-reload
without a path, resolve the extension, infer the language, perform the
initial unrendered read (which resolves the kernel) and validate that a
parameters cell exists. -/
def init (env : Env) (primitive : Primitive) (hot_reload : Bool)
    (ext_in : Option String) (kernelspec_name : Option String)
    (static_analysis : Bool) : Except PyError NBState :=
  let path := primitivePath primitive
  let prim := primitiveText primitive
  if path = none ∧ hot_reload = true then
    .error (.valueError "hot_reload only works in the notebook was loaded from a file")
  else
    match extInResolve path ext_in with
    | .error e => .error e
    | .ok ext =>
      let s0 : NBState := initState prim path ext static_analysis kernelspec_name hot_reload
      match _read_nb_str_unrendered env prim s0 with
      | (_, .error e) => .error e
      | (s1, .ok (_, nb)) =>
        match _post_init_validation s1.path nb with
        | some e => .error e
        | none => .ok s1

end NotebookSource

/-! Concrete fixtures used by witnesses and counterexamples. -/

/-- A notebook with no cells and no kernelspec metadata. -/
def nbNoMeta : Nb := { cells := [], kernelspec := none, papermill := false }

/-- A parse oracle accepting every text. -/
def pkTrue : String → Bool := fun _ => true

/-- A parse oracle rejecting every text. -/
def pkFalse : String → Bool := fun _ => false

/-- A kernel catalog with no installed kernels. -/
def emptyCatalog : String → Option Kernelspec := fun _ => none

/-- A kernel catalog with only the default Python kernel installed. -/
def catalogPy : String → Option Kernelspec := fun n =>
  if n = "python3" then some { name := "python3", display_name := "Python 3", language := "python" }
  else none

/-- A one-cell R-looking script whose text is also valid Python
syntax apart from the assignment arrows. -/
def nbRScript : Nb :=
  { cells := [{ source := "x <- 1", tags := none }], kernelspec := none, papermill := false }

/-- A one-cell notebook whose single cell is tagged `parameters`. -/
def nbParams (src : String) : Nb :=
  { cells := [{ source := src, tags := some ["parameters"] }],
    kernelspec := none, papermill := false }

/-- An environment whose used-name scanner always reports `a, b` and whose
checker reports nothing. -/
def envAB : Env :=
  { jupytext_reads := fun s _ => nbParams s,
    nbformat_writes := fun nb => concatSources nb,
    nbformat_reads := fun s => nbParams s,
    parameterize_notebook := fun nb _ => nb,
    parseOk := pkTrue, catalog := catalogPy,
    get_used_names := fun _ => ["a", "b"],
    pyflakes_check := fun _ _ => ("", "") }

/-- An environment whose transcoder produces an untagged single cell. -/
def envC7 : Env :=
  { envAB with jupytext_reads := fun s _ =>
      { cells := [{ source := s, tags := none }], kernelspec := none, papermill := false } }

/-- A backing file `nb.py` holding `x = 1`. -/
def pX : PathObj := { str := "nb.py", suffix := ".py", content := "x = 1" }

/-- The notebook the C7 witness construction reads (kernelspec resolved from
the `py` extension). -/
def nbC7 : Nb :=
  { cells := [{ source := "x = 1", tags := none }],
    kernelspec := some { name := "python3", display_name := "Python 3", language := "python" },
    papermill := false }

/-- An environment whose used-name scanner reports no declared names, so
any supplied parameter is an extra one. -/
def envNoNames : Env := { envAB with get_used_names := fun _ => [] }

/-- The parameters passed to the failing render. -/
def c1params : Params := { entries := [("product", .artifact "prod")] }

/-- The state of a `NotebookSource` built from `nb.py` with static analysis
on, before any render. -/
def c1s : NBState :=
  (NotebookSource.init envNoNames (.path pX) false none none true).toOption.getD default

/-- The composite message of the failing render validation. -/
def c1msg : String := "\nPassed non-declared parameters: product"

/-- A backing file `nb.py` whose content at construction time is `A`. -/
def pA : PathObj := { str := "nb.py", suffix := ".py", content := "A" }

/-- The parameters of the C2 scenario. -/
def c2params : Params := { entries := [("product", .artifact "p")] }

/-- State after constructing from `pA` with hot-reload on. -/
def c2s0 : NBState :=
  (NotebookSource.init envAB (.path pA) true none none false).toOption.getD default

/-- State after a successful render against content `A`. -/
def c2s1 : NBState := (NotebookSource.render envAB "A" c2params c2s0).1

/-- State after the first read of the rendered object (content still `A`),
which caches the rendered object. -/
def c2s2 : NBState := (NotebookSource.nb_obj_rendered envAB "A" c2s1).1

/-- The rendered object cached while the backing content was `A`. -/
def c2obj : Nb := nbParams "A"

/-- A parameter set holding only a `product` artifact. -/
def paramsProd : Params := { entries := [("product", .artifact "p")] }

/-- All constructor-argument fields of the state are unchanged. -/
def preservesRest (s s1 : NBState) : Prop :=
  s1.path = s.path ∧ s1.ext_in = s.ext_in ∧ s1.static_analysis = s.static_analysis ∧
  s1.kernelspec_name = s.kernelspec_name ∧ s1.hot_reload = s.hot_reload ∧
  s1.language = s.language ∧ s1.params = s.params

/-- C3: kernel name resolution obeys a strict priority order, first success
wins: an explicit `kernelspec_name` is always returned; otherwise the
notebook metadata's kernelspec name when present; otherwise, when the
extension-derived (or remaining) language is in the fixed table
`python -> python3, r -> ir`, the table decides; only otherwise does the
content heuristic decide the result. -/
theorem determine_kernel_name_priority (parseOk : String → Bool) (nb : Nb)
    (kernelspec_name ext language : Option String) :
    (∀ n, kernelspec_name = some n →
      determine_kernel_name parseOk nb kernelspec_name ext language = some n) ∧
    (∀ ks, kernelspec_name = none → nb.kernelspec = some ks →
      determine_kernel_name parseOk nb kernelspec_name ext language = some ks.name) ∧
    (∀ l k, kernelspec_name = none → nb.kernelspec = none →
      effectiveLanguage ext language = some l → List.lookup l lang2kernel = some k →
      determine_kernel_name parseOk nb kernelspec_name ext language = some k) ∧
    (kernelspec_name = none → nb.kernelspec = none →
      lang2kernelLookup (effectiveLanguage ext language) = none →
      determine_kernel_name parseOk nb kernelspec_name ext language =
        (if is_python parseOk nb then some "python3" else none)) := by
  refine ⟨?_, ?_, ?_, ?_⟩
  · intro n h
    subst h
    rfl
  · intro ks h hks
    subst h
    simp [determine_kernel_name, hks]
  · intro l k h hmeta hl hk
    subst h
    simp [determine_kernel_name, hmeta, lang2kernelLookup, hl, hk]
  · intro h hmeta hl
    subst h
    simp [determine_kernel_name, hmeta, hl]

/-- Witness for C3: an explicit kernel name wins outright. -/
theorem determine_kernel_name_priority_witness :
    determine_kernel_name pkTrue nbNoMeta (some "spark") none none = some "spark" :=
  (determine_kernel_name_priority pkTrue nbNoMeta (some "spark") none none).1 "spark" rfl

/-- C4: for a notebook without kernelspec-language metadata, text that fails
to parse as Python is classified as not Python, and text that parses but
contains the two-character R assignment token is also classified as not
Python; in either case the heuristic path of kernel resolution never yields
a Python kernel. -/
theorem is_python_heuristic (parseOk : String → Bool) (nb : Nb)
    (hmeta : nb.kernelspec = none) :
    (parseOk (concatSources nb) = false → is_python parseOk nb = false) ∧
    (parseOk (concatSources nb) = true → strContains (concatSources nb) "<-" = true →
      is_python parseOk nb = false) ∧
    (∀ ext language, lang2kernelLookup (effectiveLanguage ext language) = none →
      is_python parseOk nb = false →
      determine_kernel_name parseOk nb none ext language = none) := by
  refine ⟨?_, ?_, ?_⟩
  · intro hp
    simp [is_python, hmeta, hp]
  · intro hp hc
    simp [is_python, hmeta, hp, hc]
  · intro ext language hl hpy
    simp [determine_kernel_name, hmeta, hl, hpy]

/-- Witness for C4: a syntactically Python-valid text containing the R
assignment token is rejected by the heuristic. -/
theorem is_python_heuristic_witness : is_python pkTrue nbRScript = false :=
  (is_python_heuristic pkTrue nbRScript rfl).2.1 rfl (by decide)

/-- C9: a notebook with no kernelspec metadata and empty concatenated
source is classified as Python by the heuristic (the empty string parses as
Python and contains no assignment arrow), so resolution with no explicit
name, no metadata and no language-mapped extension binds `python3` instead
of failing. -/
theorem empty_source_resolves_python3 (parseOk : String → Bool) (nb : Nb)
    (ext language : Option String)
    (hparse : parseOk "" = true)
    (hmeta : nb.kernelspec = none)
    (hsrc : concatSources nb = "")
    (hlang : lang2kernelLookup (effectiveLanguage ext language) = none) :
    is_python parseOk nb = true ∧
    determine_kernel_name parseOk nb none ext language = some "python3" := by
  have hpy : is_python parseOk nb = true := by
    simp [is_python, hmeta, hsrc, hparse]
    decide
  refine ⟨hpy, ?_⟩
  simp [determine_kernel_name, hmeta, hlang, hpy]

/-- Witness for C9: the zero-cell notebook resolves to `python3`. -/
theorem empty_source_resolves_python3_witness :
    determine_kernel_name pkTrue nbNoMeta none none none = some "python3" :=
  (empty_source_resolves_python3 pkTrue nbNoMeta none none rfl rfl rfl rfl).2

/-- C6 counterexample: a resolved candidate kernel name that is absent from
the installed catalog makes `ensure_kernelspec` propagate the catalog's
`NoSuchKernel` error unwrapped, which is not the fatal initialization error
(and carries only the kernel name, no document identification and no
guidance). -/
theorem ensure_kernelspec_unknown_kernel_not_init_error :
    ensure_kernelspec pkTrue emptyCatalog nbNoMeta (some "foo") none none =
      .error (.noSuchKernel "foo") ∧
    (PyError.noSuchKernel "foo").isSourceInitError = false :=
  ⟨rfl, rfl⟩

/-- C6 amended: when no candidate name resolves at all, construction fails
with the `SourceInitializationError` carrying the guidance message; when a
candidate name resolves but is not in the installed catalog, the catalog's
`NoSuchKernel` error for that name propagates unwrapped; when the catalog
lookup succeeds, the notebook's kernelspec metadata is set from it. -/
theorem ensure_kernelspec_behavior (parseOk : String → Bool)
    (catalog : String → Option Kernelspec) (nb : Nb)
    (kernelspec_name ext language : Option String) :
    (determine_kernel_name parseOk nb kernelspec_name ext language = none →
      ensure_kernelspec parseOk catalog nb kernelspec_name ext language =
        .error (.sourceInitializationError kernelGuidanceMsg)) ∧
    (∀ k, determine_kernel_name parseOk nb kernelspec_name ext language = some k →
      catalog k = none →
      ensure_kernelspec parseOk catalog nb kernelspec_name ext language =
        .error (.noSuchKernel k)) ∧
    (∀ k ks, determine_kernel_name parseOk nb kernelspec_name ext language = some k →
      catalog k = some ks →
      ensure_kernelspec parseOk catalog nb kernelspec_name ext language =
        .ok { nb with kernelspec := some {
          name := k, display_name := ks.display_name, language := ks.language } }) := by
  refine ⟨?_, ?_, ?_⟩ <;> intros <;> simp [ensure_kernelspec, *]

/-- Witness for C6 amended: a candidate missing from a catalog that only
has `python3` propagates `NoSuchKernel`. -/
theorem ensure_kernelspec_behavior_witness :
    ensure_kernelspec pkTrue catalogPy nbNoMeta (some "bar") none none =
      .error (.noSuchKernel "bar") :=
  (ensure_kernelspec_behavior pkTrue catalogPy nbNoMeta (some "bar") none none).2.1
    "bar" rfl (by decide)

/-! Helper lemmas about string concatenation, used to reason about the
accumulated validation message. -/

/-- A concatenation of strings is empty exactly when both parts are. -/
theorem strAppend_eq_empty_iff (s t : String) : s ++ t = "" ↔ s = "" ∧ t = "" := by
  simp [String.ext_iff, String.data_append]

/-- The accumulated message equals the initial newline exactly when all
three accumulated parts are empty. -/
theorem nlComposite_eq_iff (a b c : String) :
    ("\n" ++ a ++ b ++ c = "\n") ↔ (a = "" ∧ b = "" ∧ c = "") := by
  simp [String.ext_iff, String.data_append]

/-- The extra-parameters fragment is empty exactly when no extra parameter
was passed. -/
theorem extraPart_eq_empty_iff (E : List String) :
    ((if E.isEmpty then ""
      else "Passed non-declared parameters: " ++ String.intercalate ", " E) = "") ↔ E = [] := by
  by_cases h : E = []
  · simp [h]
  · have hne : E.isEmpty = false := by
      simp [List.isEmpty_iff, h]
    rw [if_neg (by simp [hne])]
    constructor
    · intro he
      exact absurd ((strAppend_eq_empty_iff _ _).1 he).1 (by decide)
    · intro he
      exact absurd he h

/-- A labelled checker fragment is empty exactly when the checker text is,
provided the label is non-empty. -/
theorem labelPart_eq_empty_iff (lit W : String) (hlit : lit ≠ "") :
    ((if W = "" then "" else lit ++ W) = "") ↔ W = "" := by
  by_cases h : W = ""
  · simp [h]
  · rw [if_neg h]
    constructor
    · intro he
      exact absurd ((strAppend_eq_empty_iff _ _).1 he).1 hlit
    · intro he
      exact absurd he h

/-- The error text of `compare_params` is the extra-parameters fragment. -/
theorem compare_params_snd_eq (guns : String → List String) (src : String)
    (keys : List String) :
    (compare_params guns src keys).2 =
      (if (extraOf (guns src) keys).isEmpty then ""
       else "Passed non-declared parameters: " ++ String.intercalate ", " (extraOf (guns src) keys)) :=
  rfl

/-- The warning of `compare_params` is present exactly on a non-empty
missing set. -/
theorem compare_params_fst_eq (guns : String → List String) (src : String)
    (keys : List String) :
    (compare_params guns src keys).1 =
      (if (missingOf (guns src) keys).isEmpty then none
       else some ("Missing parameters: " ++ String.intercalate ", " (missingOf (guns src) keys) ++ ", will use default value")) :=
  rfl

/-- C5: with a parameters cell present, validation raises exactly when the
union of the extra-parameters finding, the checker warnings text and the
checker errors text is non-empty; when it raises, the error is a single
`RenderError` carrying all accumulated findings; and a non-empty missing
set produces the warning side channel (and, by the first part, never causes
the raise by itself). -/
theorem check_notebook_raises_iff (env : Env) (nb : Nb)
    (params : List (String × PVal)) (filename : String) (cell : NbCell)
    (hcell : (find_cell_with_tag nb "parameters").1 = some cell) :
    ((check_notebook env nb params filename).2 = .ok true ↔
      (extraOf (env.get_used_names cell.source) (params.map (fun kv => kv.1)) = [] ∧
       (check_source env nb filename).1 = "" ∧
       (check_source env nb filename).2 = "")) ∧
    (∀ e, (check_notebook env nb params filename).2 = .error e →
      e = .renderError ("\n"
        ++ (if (extraOf (env.get_used_names cell.source) (params.map (fun kv => kv.1))).isEmpty
            then ""
            else "Passed non-declared parameters: " ++ String.intercalate ", "
              (extraOf (env.get_used_names cell.source) (params.map (fun kv => kv.1))))
        ++ (if (check_source env nb filename).1 = "" then ""
            else "pyflakes warnings:\n" ++ (check_source env nb filename).1)
        ++ (if (check_source env nb filename).2 = "" then ""
            else "pyflakes errors:\n" ++ (check_source env nb filename).2))) ∧
    (missingOf (env.get_used_names cell.source) (params.map (fun kv => kv.1)) ≠ [] →
      ((check_notebook env nb params filename).1).isSome = true) := by
  have hred : check_notebook env nb params filename =
      (if ("\n" ++ (compare_params env.get_used_names cell.source (params.map (fun kv => kv.1))).2
           ++ (if (check_source env nb filename).1 = "" then ""
               else "pyflakes warnings:\n" ++ (check_source env nb filename).1)
           ++ (if (check_source env nb filename).2 = "" then ""
               else "pyflakes errors:\n" ++ (check_source env nb filename).2) = "\n")
       then ((compare_params env.get_used_names cell.source (params.map (fun kv => kv.1))).1,
             .ok true)
       else ((compare_params env.get_used_names cell.source (params.map (fun kv => kv.1))).1,
             .error (.renderError
               ("\n" ++ (compare_params env.get_used_names cell.source (params.map (fun kv => kv.1))).2
                ++ (if (check_source env nb filename).1 = "" then ""
                    else "pyflakes warnings:\n" ++ (check_source env nb filename).1)
                ++ (if (check_source env nb filename).2 = "" then ""
                    else "pyflakes errors:\n" ++ (check_source env nb filename).2))))) := by
    rw [check_notebook, hcell]
  have hsnd : ((compare_params env.get_used_names cell.source
      (params.map (fun kv => kv.1))).2 = "") ↔
      extraOf (env.get_used_names cell.source) (params.map (fun kv => kv.1)) = [] := by
    rw [compare_params_snd_eq]
    exact extraPart_eq_empty_iff _
  rw [hred]
  set A := (compare_params env.get_used_names cell.source (params.map (fun kv => kv.1))).2 with hA
  set B := (if (check_source env nb filename).1 = "" then ""
            else "pyflakes warnings:\n" ++ (check_source env nb filename).1) with hB
  set C := (if (check_source env nb filename).2 = "" then ""
            else "pyflakes errors:\n" ++ (check_source env nb filename).2) with hC
  have hBiff : (B = "") ↔ (check_source env nb filename).1 = "" := by
    rw [hB]
    exact labelPart_eq_empty_iff _ _ (by decide)
  have hCiff : (C = "") ↔ (check_source env nb filename).2 = "" := by
    rw [hC]
    exact labelPart_eq_empty_iff _ _ (by decide)
  refine ⟨?_, ?_, ?_⟩
  · split
    · rename_i hcond
      rw [nlComposite_eq_iff] at hcond
      refine iff_of_true rfl ?_
      exact ⟨hsnd.1 hcond.1, hBiff.1 hcond.2.1, hCiff.1 hcond.2.2⟩
    · rename_i hcond
      refine iff_of_false (by simp) ?_
      intro ⟨h1, h2, h3⟩
      refine hcond ?_
      rw [nlComposite_eq_iff]
      exact ⟨hsnd.2 h1, hBiff.2 h2, hCiff.2 h3⟩
  · split
    · intro e he
      simp at he
    · intro e he
      dsimp only at he
      injection he with h
      rw [← h, hA, hB, hC]
      rfl
  · intro hmiss
    have hne : (missingOf (env.get_used_names cell.source)
        (params.map (fun kv => kv.1))).isEmpty = false := by
      simp [List.isEmpty_iff, hmiss]
    split <;>
      simp [compare_params_fst_eq, hne]



/-- Witness for C5: a notebook whose parameters cell declares `a, b` and
receives only `a` passes validation (the missing parameter is only a
warning). -/
theorem check_notebook_raises_iff_witness :
    (check_notebook envAB (nbParams "a = 1") [("a", .plain true)] "notebook").2 = .ok true :=
  ((check_notebook_raises_iff envAB (nbParams "a = 1") [("a", .plain true)] "notebook"
    { source := "a = 1", tags := some ["parameters"] } rfl).1).2
    ⟨by decide, rfl, rfl⟩

/-- `to_json_serializable` only ever fails with the `AttributeError`. -/
theorem to_json_serializable_error (v : PVal) (e : PyError)
    (h : PVal.to_json_serializable v = .error e) :
    e = .attributeError "to_json_serializable" := by
  cases v <;> simp_all [PVal.to_json_serializable]

/-- The upstream conversion only ever fails with the `AttributeError`. -/
theorem convertUpstream_error : ∀ (es : List (String × PVal)) (e : PyError),
    convertUpstream es = .error e → e = .attributeError "to_json_serializable" := by
  intro es
  induction es with
  | nil =>
    intro e h
    simp [convertUpstream] at h
  | cons kv rest ih =>
    intro e h
    obtain ⟨k, v⟩ := kv
    rw [convertUpstream] at h
    cases hv : PVal.to_json_serializable v with
    | error e1 =>
      rw [hv] at h
      injection h with h2
      rw [← h2]
      exact to_json_serializable_error v e1 hv
    | ok v1 =>
      rw [hv] at h
      cases hr : convertUpstream rest with
      | error e2 =>
        rw [hr] at h
        injection h with h2
        rw [← h2]
        exact ih e2 hr
      | ok rest1 =>
        rw [hr] at h
        simp at h

/-- C10: `json_serializable_params` accesses the `product` key
unconditionally, so a parameter set lacking `product` fails with the
key-lookup error; when `product` is present no key-lookup error can occur;
and `upstream` is converted only when present and truthy, being left
untouched otherwise. -/
theorem json_serializable_params_product_key (params : Params) :
    (List.lookup "product" params.to_dict = none →
      json_serializable_params params = .error (.keyError "product")) ∧
    (∀ v, List.lookup "product" params.to_dict = some v →
      ∀ k, json_serializable_params params ≠ .error (.keyError k)) ∧
    (∀ v pj, List.lookup "product" params.to_dict = some v →
      PVal.to_json_serializable v = .ok pj →
      ((List.lookup "upstream" (updateKey "product" pj params.to_dict) = none →
        json_serializable_params params = .ok (updateKey "product" pj params.to_dict)) ∧
       (∀ u, List.lookup "upstream" (updateKey "product" pj params.to_dict) = some u →
        u.truthy = false →
        json_serializable_params params = .ok (updateKey "product" pj params.to_dict)) ∧
       (∀ es es1, List.lookup "upstream" (updateKey "product" pj params.to_dict) = some (.dictV es) →
        (PVal.dictV es).truthy = true →
        convertUpstream es = .ok es1 →
        json_serializable_params params =
          .ok (updateKey "upstream" (.dictV es1) (updateKey "product" pj params.to_dict))))) := by
  refine ⟨?_, ?_, ?_⟩
  · intro h
    simp [json_serializable_params, h]
  · intro v hv k
    cases hj : PVal.to_json_serializable v with
    | error e =>
      have he := to_json_serializable_error v e hj
      simp [json_serializable_params, hv, hj, he]
    | ok pj =>
      cases hu : List.lookup "upstream" (updateKey "product" pj params.to_dict) with
      | none =>
        simp [json_serializable_params, hv, hj, hu]
      | some u =>
        by_cases ht : u.truthy
        · cases u with
          | dictV es =>
            cases hc : convertUpstream es with
            | error e =>
              have he := convertUpstream_error es e hc
              simp [json_serializable_params, hv, hj, hu, ht, hc, he]
            | ok es1 =>
              simp [json_serializable_params, hv, hj, hu, ht, hc]
          | plain b =>
            simp [json_serializable_params, hv, hj, hu, ht]
          | artifact i =>
            simp [json_serializable_params, hv, hj, hu, ht]
          | serialized i =>
            simp [json_serializable_params, hv, hj, hu, ht]
        · simp [json_serializable_params, hv, hj, hu, ht]
  · intro v pj hv hj
    refine ⟨?_, ?_, ?_⟩
    · intro hu
      simp [json_serializable_params, hv, hj, hu]
    · intro u hu ht
      simp [json_serializable_params, hv, hj, hu, ht]
    · intro es es1 hu ht hc
      simp [json_serializable_params, hv, hj, hu, ht, hc]

/-! Preservation lemmas for the facade state machine: which cached fields
each operation can touch. -/



/-- The unrendered read touches only the primitive and the unrendered
caches: the rendered caches and the constructor arguments survive. -/
theorem read_preserves (env : Env) (c : String) (s : NBState) :
    preservesRest s (NotebookSource._read_nb_str_unrendered env c s).1 ∧
    (NotebookSource._read_nb_str_unrendered env c s).1.nb_str_rendered = s.nb_str_rendered ∧
    (NotebookSource._read_nb_str_unrendered env c s).1.nb_obj_rendered = s.nb_obj_rendered := by
  unfold NotebookSource._read_nb_str_unrendered
  split
  · split <;> (dsimp only; split <;> simp [preservesRest])
  · simp [preservesRest]

/-- The `language` property touches only what the unrendered read
touches. -/
theorem languageProp_preserves (env : Env) (c : String) (s : NBState) :
    preservesRest s (NotebookSource.languageProp env c s).1 ∧
    (NotebookSource.languageProp env c s).1.nb_str_rendered = s.nb_str_rendered ∧
    (NotebookSource.languageProp env c s).1.nb_obj_rendered = s.nb_obj_rendered := by
  unfold NotebookSource.languageProp
  split
  · simp [preservesRest]
  · split
    · rename_i heq
      have h := read_preserves env c s
      rw [heq] at h
      simpa using h
    · rename_i heq
      have h := read_preserves env c s
      rw [heq] at h
      simpa using h

/-- Post-render validation touches only what the `language` property
touches. -/
theorem postRV_preserves (env : Env) (c : String) (s : NBState) (t : String) :
    preservesRest s (NotebookSource._post_render_validation env c s t).1 ∧
    (NotebookSource._post_render_validation env c s t).1.nb_str_rendered = s.nb_str_rendered ∧
    (NotebookSource._post_render_validation env c s t).1.nb_obj_rendered = s.nb_obj_rendered := by
  unfold NotebookSource._post_render_validation
  split
  · split
    · rename_i heq
      have h := languageProp_preserves env c s
      rw [heq] at h
      simpa using h
    · rename_i heq
      have h := languageProp_preserves env c s
      rw [heq] at h
      split
      · dsimp only
        split <;> simpa using h
      · simpa using h
  · simp [preservesRest]

/-- `_render` never touches the rendered-object cache, and preserves the
constructor arguments. -/
theorem _render_preserves (env : Env) (c : String) (s : NBState) :
    preservesRest s (NotebookSource._render env c s).1 ∧
    (NotebookSource._render env c s).1.nb_obj_rendered = s.nb_obj_rendered := by
  unfold NotebookSource._render
  split
  · rename_i heq
    have h := read_preserves env c s
    rw [heq] at h
    exact ⟨h.1, h.2.2⟩
  · rename_i s1 w nb heq
    have hr := read_preserves env c s
    rw [heq] at hr
    have hp := postRV_preserves env c
      { s1 with
        nb_obj_unrendered := some (normalizeNb nb),
        nb_str_rendered := some (renderedTextFrom env nb s1.params) }
      (renderedTextFrom env nb s1.params)
    obtain ⟨⟨hp1, hp2, hp3, hp4, hp5, hp6, hp7⟩, hp8, hp9⟩ := hp
    obtain ⟨⟨hr1, hr2, hr3, hr4, hr5, hr6, hr7⟩, hr8, hr9⟩ := hr
    refine ⟨⟨?_, ?_, ?_, ?_, ?_, ?_, ?_⟩, ?_⟩ <;>
      simp_all

/-- `render` never touches the rendered-object cache. -/
theorem render_obj_preserved (env : Env) (c : String) (params : Params) (s : NBState) :
    (NotebookSource.render env c params s).1.nb_obj_rendered = s.nb_obj_rendered := by
  unfold NotebookSource.render
  split
  · rfl
  · rename_i d heq
    have h := (_render_preserves env c { s with params := some d }).2
    simpa using h

/-- `_to_nb_obj` never raises the render-validation error. -/
theorem to_nb_obj_error_not_render (env : Env) (src : String)
    (language : Option String) (ext : String) (kernelspec_name : Option String)
    (e : PyError) (h : _to_nb_obj env src language ext kernelspec_name = .error e) :
    e.isRenderErrorB = false := by
  unfold _to_nb_obj ensure_kernelspec at h
  split at h
  · injection h with h2
    rw [← h2]
    rfl
  · split at h
    · injection h with h2
      rw [← h2]
      rfl
    · simp at h

/-- The unrendered read never raises the render-validation error. -/
theorem read_error_not_render (env : Env) (c : String) (s : NBState) (e : PyError)
    (h : (NotebookSource._read_nb_str_unrendered env c s).2 = .error e) :
    e.isRenderErrorB = false := by
  unfold NotebookSource._read_nb_str_unrendered at h
  split at h
  · split at h
    · dsimp only at h
      split at h
      · rename_i e2 heq
        injection h with h2
        rw [← h2]
        exact to_nb_obj_error_not_render env _ _ _ _ e2 heq
      · simp at h
    · dsimp only at h
      split at h
      · rename_i e2 heq
        injection h with h2
        rw [← h2]
        exact to_nb_obj_error_not_render env _ _ _ _ e2 heq
      · simp at h
  · simp at h

/-- `json_serializable_params` never raises the render-validation error. -/
theorem json_error_not_render (params : Params) (e : PyError)
    (h : json_serializable_params params = .error e) :
    e.isRenderErrorB = false := by
  unfold json_serializable_params at h
  split at h
  · injection h with h2
    rw [← h2]
    rfl
  · rename_i p hp
    split at h
    · rename_i e1 h1
      injection h with h2
      rw [← h2, to_json_serializable_error p e1 h1]
      rfl
    · rename_i pj hj
      split at h
      · rename_i u hu
        split at h
        · split at h
          · split at h
            · rename_i e2 h2
              injection h with h3
              rw [← h3, convertUpstream_error _ e2 h2]
              rfl
            · simp at h
          · injection h with h2
            rw [← h2]
            rfl
        · simp at h
      · simp at h

/-- If `_render` raises the render-validation error, the freshly computed
rendered text (the serialized injector output on the notebook just read)
was already committed to the rendered-text cache. -/
theorem _render_renderError_commits (env : Env) (c : String) (s : NBState)
    (m : String) (hm : (NotebookSource._render env c s).2 = some (.renderError m)) :
    ∃ s1 w nb,
      NotebookSource._read_nb_str_unrendered env c s = (s1, .ok (w, nb)) ∧
      (NotebookSource._render env c s).1.nb_str_rendered =
        some (renderedTextFrom env nb s1.params) := by
  unfold NotebookSource._render at hm ⊢
  split at hm
  · rename_i e heq
    exfalso
    dsimp only at hm
    injection hm with h2
    have := read_error_not_render env c s e (by rw [heq])
    rw [h2] at this
    simp [PyError.isRenderErrorB] at this
  · rename_i s1 w nb heq
    refine ⟨s1, w, nb, heq, ?_⟩
    have hp := postRV_preserves env c
      { s1 with
        nb_obj_unrendered := some (normalizeNb nb),
        nb_str_rendered := some (renderedTextFrom env nb s1.params) }
      (renderedTextFrom env nb s1.params)
    rw [hp.2.1]

/-- C1 amended: a failed render is not atomic on the rendered text but is on
the rendered object: `render` never changes the rendered-object cache, and
when it raises the render-validation error the freshly computed rendered
text (the serialized injector output on the just-read notebook) has already
been committed to `nb_str_rendered` — so the stored rendered text can
differ from its pre-call value. -/
theorem render_commits_text_on_validation_failure (env : Env) (c : String)
    (params : Params) (s : NBState) :
    (NotebookSource.render env c params s).1.nb_obj_rendered = s.nb_obj_rendered ∧
    (∀ m, (NotebookSource.render env c params s).2 = some (.renderError m) →
      ∃ d s1 w nb,
        json_serializable_params params = .ok d ∧
        NotebookSource._read_nb_str_unrendered env c { s with params := some d } =
          (s1, .ok (w, nb)) ∧
        (NotebookSource.render env c params s).1.nb_str_rendered =
          some (renderedTextFrom env nb s1.params)) := by
  refine ⟨render_obj_preserved env c params s, ?_⟩
  intro m hm
  unfold NotebookSource.render at hm ⊢
  split at hm
  · rename_i e heq
    exfalso
    dsimp only at hm
    injection hm with h2
    have := json_error_not_render params e heq
    rw [h2] at this
    simp [PyError.isRenderErrorB] at this
  · rename_i d heq
    obtain ⟨s1, w, nb, h1, h2⟩ :=
      _render_renderError_commits env c { s with params := some d } m hm
    exact ⟨d, s1, w, nb, heq, h1, h2⟩

/-- On a state with an unset unrendered cache, the read recomputes from the
stored primitive. -/
theorem read_fresh (env : Env) (c : String) (s : NBState)
    (hs : s.nb_str_unrendered = none) (hc : s.primitive = c) :
    NotebookSource._read_nb_str_unrendered env c s =
      (match _to_nb_obj env c s.language s.ext_in s.kernelspec_name with
       | .error e => ({ s with primitive := c }, .error e)
       | .ok nb =>
         ({ s with
            primitive := c,
            nb_obj_unrendered := some nb,
            nb_str_unrendered := some (env.nbformat_writes nb) },
          .ok (env.nbformat_writes nb, nb))) := by
  unfold NotebookSource._read_nb_str_unrendered
  rw [if_pos (Or.inl hs), ← hc]
  dsimp only
  rw [ite_self]

/-- With hot-reload on, the read always recomputes from the current backing
content. -/
theorem read_hot (env : Env) (c : String) (s : NBState)
    (hhot : s.hot_reload = true) (nb : Nb)
    (hto : _to_nb_obj env c s.language s.ext_in s.kernelspec_name = .ok nb) :
    NotebookSource._read_nb_str_unrendered env c s =
      ({ s with
         primitive := c,
         nb_obj_unrendered := some nb,
         nb_str_unrendered := some (env.nbformat_writes nb) },
       .ok (env.nbformat_writes nb, nb)) := by
  unfold NotebookSource._read_nb_str_unrendered
  rw [if_pos (Or.inr hhot), hhot, if_pos rfl]
  dsimp only
  rw [hto]

/-- C7: when construction from a path reaches the post-init check (the
initial read succeeded) and the document has no cell tagged `parameters`,
it raises the `SourceInitializationError` whose message names the
document's location. -/
theorem init_no_parameters_cell (env : Env) (p : PathObj) (hot : Bool)
    (kernelspec_name : Option String) (static : Bool) (nb : Nb)
    (hread : _to_nb_obj env p.content (determine_language (p.suffix.drop 1))
      (p.suffix.drop 1) kernelspec_name = .ok nb)
    (hnone : (find_cell_with_tag nb "parameters").1 = none) :
    NotebookSource.init env (.path p) hot none kernelspec_name static =
      .error (.sourceInitializationError
        ("Notebook" ++ (" \"" ++ p.str ++ "\"") ++
         " does not have a cell tagged \"parameters\"")) := by
  unfold NotebookSource.init
  dsimp only [primitivePath, primitiveText]
  rw [if_neg (by simp)]
  dsimp only [NotebookSource.extInResolve]
  rw [read_fresh env p.content
    (initState p.content (some p) (p.suffix.drop 1) static kernelspec_name hot) rfl rfl]
  dsimp only [initState]
  rw [hread]
  dsimp only
  unfold NotebookSource._post_init_validation
  rw [hnone]







/-- Witness for C7: the untagged document makes construction fail and the
message names `nb.py`. -/
theorem init_no_parameters_cell_witness :
    NotebookSource.init envC7 (.path pX) false none none false =
      .error (.sourceInitializationError
        ("Notebook" ++ (" \"" ++ "nb.py" ++ "\"") ++
         " does not have a cell tagged \"parameters\"")) :=
  init_no_parameters_cell envC7 pX false none false nbC7 rfl rfl

/-- C8 counterexample: requesting hot-reload for a string primitive fails
with `ValueError`, which is not a `SourceInitializationError`. -/
theorem init_hot_reload_not_init_error :
    NotebookSource.init envAB (.str "x = 1") true none none false =
      .error (.valueError "hot_reload only works in the notebook was loaded from a file") ∧
    (PyError.valueError "hot_reload only works in the notebook was loaded from a file").isSourceInitError
      = false :=
  ⟨rfl, rfl⟩

/-- C8 amended: hot-reload without a backing path, an extension given
together with a path, and neither a path nor an extension each make
construction fail fatally — but with `ValueError`, not
`SourceInitializationError`. -/
theorem init_invalid_args_value_error (env : Env) (prim : Primitive)
    (ext_in kernelspec_name : Option String) (hot static : Bool) :
    (primitivePath prim = none → hot = true →
      NotebookSource.init env prim hot ext_in kernelspec_name static =
        .error (.valueError "hot_reload only works in the notebook was loaded from a file")) ∧
    (∀ p e, primitivePath prim = some p → ext_in = some e →
      NotebookSource.init env prim hot ext_in kernelspec_name static =
        .error (.valueError "\"ext_in\" must be None if notebook is initialized from a pathlib.Path object")) ∧
    (primitivePath prim = none → ext_in = none → hot = false →
      NotebookSource.init env prim hot ext_in kernelspec_name static =
        .error (.valueError "\"ext_in\" cannot be None if the notebook is initialized from a string. Either pass a pathlib.Path object with the notebook file location or pass the source code as string and include the \"ext_in\" parameter")) := by
  refine ⟨?_, ?_, ?_⟩
  · intro hp hh
    unfold NotebookSource.init
    dsimp only
    rw [if_pos ⟨hp, hh⟩]
  · intro p e hp he
    unfold NotebookSource.init
    dsimp only
    rw [if_neg (by simp [hp])]
    rw [hp, he]
    rfl
  · intro hp he hh
    unfold NotebookSource.init
    dsimp only
    rw [if_neg (by simp [hp, hh])]
    rw [hp, he]
    rfl

/-- Witness for C8 amended: passing `ext_in` together with a path fails
with the `ValueError`. -/
theorem init_invalid_args_value_error_witness :
    NotebookSource.init envAB (.path pX) false (some "py") none false =
      .error (.valueError "\"ext_in\" must be None if notebook is initialized from a pathlib.Path object") :=
  (init_invalid_args_value_error envAB (.path pX) (some "py") none false false).2.1
    pX "py" rfl rfl



/-- C1 counterexample: a render that raises the render-validation error
still commits the freshly computed text to the rendered-text cache — the
facade's stored rendered text is `none` before and `some "x = 1"` after the
failed call. -/
theorem render_validation_failure_mutates_state :
    isSomeRenderError (NotebookSource.render envNoNames "x = 1" c1params c1s).2 = true ∧
    c1s.nb_str_rendered = none ∧
    (NotebookSource.render envNoNames "x = 1" c1params c1s).1.nb_str_rendered = some "x = 1" :=
  ⟨rfl, rfl, rfl⟩

/-- Witness for C1 amended: at the concrete failing render, the rendered
text cache holds a value after the call. -/
theorem render_commits_text_on_validation_failure_witness :
    ((NotebookSource.render envNoNames "x = 1" c1params c1s).1.nb_str_rendered).isSome = true := by
  obtain ⟨d, s1, w, nb, h1, h2, h3⟩ :=
    (render_commits_text_on_validation_failure envNoNames "x = 1" c1params c1s).2 c1msg rfl
  rw [h3]
  rfl

/-- C2 amended: with hot-reload on, the unrendered read and the rendered
text always recompute from the current backing content, but the rendered
object is returned from its cache unchanged once computed — it is never
demoted, so it can be stale. -/
theorem hot_reload_cache_behavior (env : Env) (c : String) (s : NBState)
    (hhot : s.hot_reload = true) :
    (∀ o, s.nb_obj_rendered = some o →
      NotebookSource.nb_obj_rendered env c s = (s, .ok o)) ∧
    (∀ nb, _to_nb_obj env c s.language s.ext_in s.kernelspec_name = .ok nb →
      NotebookSource._read_nb_str_unrendered env c s =
        ({ s with
           primitive := c,
           nb_obj_unrendered := some nb,
           nb_str_unrendered := some (env.nbformat_writes nb) },
         .ok (env.nbformat_writes nb, nb))) ∧
    (∀ t nb, s.nb_str_rendered ≠ none →
      _to_nb_obj env c s.language s.ext_in s.kernelspec_name = .ok nb →
      (NotebookSource.nb_str_rendered env c s).2 = .ok t →
      t = renderedTextFrom env nb s.params) := by
  refine ⟨?_, ?_, ?_⟩
  · intro o ho
    unfold NotebookSource.nb_obj_rendered
    rw [ho]
  · intro nb hto
    exact read_hot env c s hhot nb hto
  · intro t nb hsr hto hres
    have hrd := read_hot env c s hhot nb hto
    have hrender : NotebookSource._render env c s =
        NotebookSource._post_render_validation env c
          { s with
            primitive := c,
            nb_obj_unrendered := some (normalizeNb nb),
            nb_str_unrendered := some (env.nbformat_writes nb),
            nb_str_rendered := some (renderedTextFrom env nb s.params) }
          (renderedTextFrom env nb s.params) := by
      unfold NotebookSource._render
      rw [hrd]
    unfold NotebookSource.nb_str_rendered at hres
    rw [if_neg hsr, if_pos hhot, hrender] at hres
    rcases hpv : NotebookSource._post_render_validation env c
        { s with
          primitive := c,
          nb_obj_unrendered := some (normalizeNb nb),
          nb_str_unrendered := some (env.nbformat_writes nb),
          nb_str_rendered := some (renderedTextFrom env nb s.params) }
        (renderedTextFrom env nb s.params) with ⟨s4, r4⟩
    rw [hpv] at hres
    cases r4 with
    | some e => simp at hres
    | none =>
      have hp := postRV_preserves env c
        { s with
          primitive := c,
          nb_obj_unrendered := some (normalizeNb nb),
          nb_str_unrendered := some (env.nbformat_writes nb),
          nb_str_rendered := some (renderedTextFrom env nb s.params) }
        (renderedTextFrom env nb s.params)
      rw [hpv] at hp
      have h3 : s4.nb_str_rendered = some (renderedTextFrom env nb s.params) := hp.2.1
      dsimp only at hres
      injection hres with h2
      rw [← h2, h3]
      rfl



/-- C2 counterexample: after the backing content changes to `B`, reading
the rendered text re-renders and returns `B`, but reading the rendered
object returns the cached object still holding `A` — the rendered object
does not reflect the current backing content. -/
theorem nb_obj_rendered_stale :
    (NotebookSource.nb_obj_rendered envAB "B" c2s2).2 = .ok c2obj ∧
    c2obj.cells.map (fun cl => cl.source) = ["A"] ∧
    (NotebookSource.nb_str_rendered envAB "B" c2s2).2 = .ok "B" ∧
    (envAB.nbformat_reads "B").cells.map (fun cl => cl.source) = ["B"] :=
  ⟨rfl, rfl, rfl, rfl⟩

/-- Witness for C2 amended: the cached rendered object is returned
unchanged under hot-reload. -/
theorem hot_reload_cache_behavior_witness :
    NotebookSource.nb_obj_rendered envAB "B" c2s2 = (c2s2, .ok c2obj) :=
  (hot_reload_cache_behavior envAB "B" c2s2 rfl).1 c2obj rfl



/-- Witness for C10: with `product` present and no `upstream`, conversion
succeeds and only rewrites the `product` binding. -/
theorem json_serializable_params_product_key_witness :
    json_serializable_params paramsProd = .ok [("product", .serialized "p")] :=
  ((json_serializable_params_product_key paramsProd).2.2 (.artifact "p") (.serialized "p")
    rfl rfl).1 rfl

end Ploomber
